import Mathlib

/-!
Shallow embedding of `oggm/core/models/massbalance.py`.

The five mass-balance model classes (`MassBalanceModel`, `ConstantBalanceModel`,
`TstarMassBalanceModel`, `BackwardsMassBalanceModel`, `TodayMassBalanceModel`,
`HistalpMassBalanceModel`) are translated into Lean structures with explicit
state passing.  Numpy arrays become `List ℚ` or index functions `ℕ → ℕ → ℚ`,
numpy reductions become list folds, and fallible code returns `Except`.
-/

set_option maxHeartbeats 1000000
set_option maxRecDepth 10000

/-- Modelled from the spec: `SEC_IN_YEAR` comes from `oggm.cfg`, which is not
under `src/`; the spec calls it "seconds-in-a-year" (365 days of 86400 s). -/
def SEC_IN_YEAR : ℚ := 31536000

/-- Modelled from the spec: `cfg.RHO`, the ice density used to normalize the
mass balance to length units; `oggm.cfg` is not under `src/`. -/
def RHO : ℚ := 900

/-- `np.clip(x, lo, hi)`: numpy computes `minimum(maximum(x, lo), hi)`, i.e.
the lower bound is applied first; when `lo > hi` the result is `hi`. -/
def npClip (x lo hi : ℚ) : ℚ := min (max x lo) hi

/-- `np.min` of a 1-D array (total on `[]`, where numpy would raise). -/
def npMin : List ℚ → ℚ
  | [] => 0
  | x :: xs => xs.foldl min x

/-- `np.max` of a 1-D array (total on `[]`, where numpy would raise). -/
def npMax : List ℚ → ℚ
  | [] => 0
  | x :: xs => xs.foldl max x

/-- `np.mean` of a 1-D array. -/
def npMean (l : List ℚ) : ℚ := l.sum / (l.length : ℚ)

/-- `np.linspace lo hi n`: `n` evenly spaced samples from `lo` to `hi`
inclusive. -/
def linspace (lo hi : ℚ) (n : ℕ) : List ℚ :=
  (List.range n).map (fun i : ℕ => lo + (hi - lo) * (i : ℚ) / ((n : ℚ) - 1))

/-- Helper for `interp1d`: walk the `(x, y)` node list and interpolate
linearly on the first segment whose right node is at or beyond `x`. -/
def interpSeg : List (ℚ × ℚ) → ℚ → ℚ
  | [], _ => 0
  | [(_, y0)], _ => y0
  | (x0, y0) :: (x1, y1) :: rest, x =>
    if x ≤ x1 then y0 + (y1 - y0) * (x - x0) / (x1 - x0)
    else interpSeg ((x1, y1) :: rest) x

/-- `scipy.interpolate.interp1d(xs, ys)` applied at `x`: piecewise-linear
interpolation through the nodes `(xs[i], ys[i])` (with `xs` increasing). -/
def interp1d (xs ys : List ℚ) (x : ℚ) : ℚ := interpSeg (xs.zip ys) x

/-- First index of `t` in `l` (`np.where(l == t)[0][0]`, as an `Option`). -/
def findIdxEq (l : List ℤ) (t : ℤ) : Option ℕ :=
  match l with
  | [] => none
  | x :: xs => if x = t then some 0 else (findIdxEq xs t).map (· + 1)

/-- Last index of `t` in `l` (`np.max(np.nonzero(l == t)[0])`, as an
`Option`). -/
def findLastIdxEq (l : List ℤ) (t : ℤ) : Option ℕ :=
  (findIdxEq l.reverse t).map (fun i => l.length - 1 - i)

/-- The raw monthly climate record read from the `climate_monthly` NetCDF
file: series length, last calendar year of the time axis, the monthly
temperature, precipitation and gradient series, and the reference height. -/
structure ClimateNC where
  timeLen : ℕ
  lastYear : ℤ
  temp : List ℚ
  prcp : List ℚ
  grad : List ℚ
  ref_hgt : ℚ

/-- `ConstantBalanceModel`: simple gradient mass-balance model. -/
structure ConstantBalanceModel where
  ela_h : ℚ
  grad : ℚ
  bias : ℚ

namespace ConstantBalanceModel

/-- `MassBalanceModel.set_bias`, inherited: stores the bias scalar. -/
def set_bias (m : ConstantBalanceModel) (bias : ℚ) : ConstantBalanceModel :=
  { m with bias := bias }

/-- `ConstantBalanceModel.get_mb`:
`mb = (heights - ela_h) * grad + bias; return mb / SEC_IN_YEAR / 1000.` -/
def get_mb (m : ConstantBalanceModel) (heights : List ℚ) (year : Option ℚ) :
    List ℚ :=
  heights.map (fun h => ((h - m.ela_h) * m.grad + m.bias) / SEC_IN_YEAR / 1000)

end ConstantBalanceModel

/-- `TstarMassBalanceModel`: constant mass balance, equilibrium MB at the
period around `t_star`.  Stores the interpolation nodes `(h, mb_on_h)` built
by `__init__` together with the bias. -/
structure TstarMassBalanceModel where
  h : List ℚ
  mb_on_h : List ℚ
  t_star : ℤ
  bias : ℚ

namespace TstarMassBalanceModel

/-- `TstarMassBalanceModel.__init__`: `mu_star` and `t_star` come from the
`local_mustar` file, the flowline surface heights from `model_flowlines`, and
`t`, `p` (per elevation sample, per year of the window around `t_star`) from
the external `climate.mb_yearly_climate_on_height` query.
`h = linspace(min(h) - 200, max(h) + 1200, 1000)`;
`mb_on_h = mean(p, axis=1) - mu_star * mean(t, axis=1)`. -/
def init (mu_star : ℚ) (t_star : ℤ) (fl_h : List ℚ)
    (t p : List (List ℚ)) (bias : ℚ) : TstarMassBalanceModel :=
  { h := linspace (npMin fl_h - 200) (npMax fl_h + 1200) 1000
    mb_on_h := (p.zip t).map (fun pt => npMean pt.1 - mu_star * npMean pt.2)
    t_star := t_star
    bias := bias }

/-- `MassBalanceModel.set_bias`, inherited. -/
def set_bias (m : TstarMassBalanceModel) (bias : ℚ) : TstarMassBalanceModel :=
  { m with bias := bias }

/-- `TstarMassBalanceModel.get_mb`:
`return (self.interp(heights) + self._bias) / SEC_IN_YEAR / cfg.RHO`. -/
def get_mb (m : TstarMassBalanceModel) (heights : List ℚ) (year : Option ℚ) :
    List ℚ :=
  heights.map (fun x => (interp1d m.h m.mb_on_h x + m.bias) / SEC_IN_YEAR / RHO)

end TstarMassBalanceModel

/-- `TodayMassBalanceModel`: constant mass balance for the fixed window
`[1983, 2003]`; differs from `TstarMassBalanceModel` only in the window and
in the elevation padding (`-100 / +200`). -/
structure TodayMassBalanceModel where
  h : List ℚ
  mb_on_h : List ℚ
  bias : ℚ

namespace TodayMassBalanceModel

/-- `TodayMassBalanceModel.__init__`:
`h = linspace(min(h) - 100, max(h) + 200, 1000)`;
`mb_on_h = mean(p, axis=1) - mu_star * mean(t, axis=1)` for the external
climate query over `[1983, 2003]`. -/
def init (mu_star : ℚ) (fl_h : List ℚ) (t p : List (List ℚ)) (bias : ℚ) :
    TodayMassBalanceModel :=
  { h := linspace (npMin fl_h - 100) (npMax fl_h + 200) 1000
    mb_on_h := (p.zip t).map (fun pt => npMean pt.1 - mu_star * npMean pt.2)
    bias := bias }

/-- `MassBalanceModel.set_bias`, inherited. -/
def set_bias (m : TodayMassBalanceModel) (bias : ℚ) : TodayMassBalanceModel :=
  { m with bias := bias }

/-- `TodayMassBalanceModel.get_mb`:
`return (self.interp(heights) + self._bias) / SEC_IN_YEAR / cfg.RHO`. -/
def get_mb (m : TodayMassBalanceModel) (heights : List ℚ) (year : Option ℚ) :
    List ℚ :=
  heights.map (fun x => (interp1d m.h m.mb_on_h x + m.bias) / SEC_IN_YEAR / RHO)

end TodayMassBalanceModel

/-- `HistalpMassBalanceModel`: mass balance during the full HISTALP record.
`__init__` does not call the base initializer, so the inherited `_bias`
field only exists once `set_bias` is called; it is included here (set to `0`
by the constructor) because `get_mb` never reads it. -/
structure HistalpMassBalanceModel where
  mu_star : ℚ
  temp_all_solid : ℚ
  temp_all_liq : ℚ
  temp_melt : ℚ
  years : List ℤ
  temp : List ℚ
  prcp : List ℚ
  grad : List ℚ
  ref_hgt : ℚ
  bias : ℚ

namespace HistalpMassBalanceModel

/-- `HistalpMassBalanceModel.__init__`: reads `mu_star` from the
`local_mustar` file and the thresholds from `cfg.PARAMS` (all passed in
here), then the full monthly record; `ny, r = divmod(len(time), 12)` and
`r != 0` raises `ValueError`; `years = arange(last - ny + 1, last + 1)`. -/
def init (nc : ClimateNC) (mu_star temp_all_solid temp_all_liq temp_melt : ℚ) :
    Except String HistalpMassBalanceModel :=
  let ny := nc.timeLen / 12
  if nc.timeLen % 12 = 0 then
    Except.ok
      { mu_star := mu_star
        temp_all_solid := temp_all_solid
        temp_all_liq := temp_all_liq
        temp_melt := temp_melt
        years := (List.range ny).map (fun i : ℕ => nc.lastYear - (ny : ℤ) + 1 + (i : ℤ))
        temp := nc.temp
        prcp := nc.prcp
        grad := nc.grad
        ref_hgt := nc.ref_hgt
        bias := 0 }
  else Except.error "Climate data should be N full years exclusively"

/-- `MassBalanceModel.set_bias`, inherited. -/
def set_bias (m : HistalpMassBalanceModel) (bias : ℚ) :
    HistalpMassBalanceModel :=
  { m with bias := bias }

/-- The 12-month slice `self.temp[12*pok : 12*pok+12]` of a series. -/
def block (l : List ℚ) (pok : ℕ) : List ℚ := (l.drop (12 * pok)).take 12

/-- `temp2d[i, j] = itemp[j] + igrad[j] * (heights[i] - ref_hgt)` for the
selected year block `pok`. -/
def temp2d (m : HistalpMassBalanceModel) (heights : List ℚ) (pok i j : ℕ) :
    ℚ :=
  (block m.temp pok).getD j 0 +
    (block m.grad pok).getD j 0 * (heights.getD i 0 - m.ref_hgt)

/-- The unclipped melt forcing `temp2d - self.temp_melt` per cell. -/
def rawMelt (m : HistalpMassBalanceModel) (heights : List ℚ) (pok i j : ℕ) :
    ℚ :=
  m.temp2d heights pok i j - m.temp_melt

/-- `temp2dformelt.max()`: the maximum of the unclipped melt forcing over
all `len(heights) * 12` cells. -/
def meltMax (m : HistalpMassBalanceModel) (heights : List ℚ) (pok : ℕ) : ℚ :=
  npMax ((List.range heights.length).flatMap (fun i =>
    (List.range 12).map (fun j => m.rawMelt heights pok i j)))

/-- `np.clip(temp2dformelt, 0, temp2dformelt.max())` per cell. -/
def melt (m : HistalpMassBalanceModel) (heights : List ℚ) (pok i j : ℕ) : ℚ :=
  npClip (m.rawMelt heights pok i j) 0 (m.meltMax heights pok)

/-- The solid-precipitation fraction
`np.clip(1 - (temp2d - temp_all_solid) / (temp_all_liq - temp_all_solid), 0, 1)`. -/
def fac (m : HistalpMassBalanceModel) (heights : List ℚ) (pok i j : ℕ) : ℚ :=
  npClip (1 - (m.temp2d heights pok i j - m.temp_all_solid) /
    (m.temp_all_liq - m.temp_all_solid)) 0 1

/-- `mb_annual = np.sum(prcpsol - mu_star * temp2dformelt, axis=1)` where
`prcpsol = iprcp * fac`, for the selected year block `pok`. -/
def mbAnnual (m : HistalpMassBalanceModel) (heights : List ℚ) (pok : ℕ) :
    List ℚ :=
  (List.range heights.length).map (fun i =>
    ((List.range 12).map (fun j =>
      (block m.prcp pok).getD j 0 * m.fac heights pok i j -
        m.mu_star * m.melt heights pok i j)).sum)

/-- `HistalpMassBalanceModel.get_mb`:
`pok = np.where(self.years == np.floor(year))[0][0]` (an `IndexError` when
the year is absent), then the kernel for that block, then
`mb_annual / SEC_IN_YEAR / cfg.RHO`. -/
def get_mb (m : HistalpMassBalanceModel) (heights : List ℚ) (year : ℚ) :
    Except String (List ℚ) :=
  match findIdxEq m.years ⌊year⌋ with
  | none => Except.error "IndexError"
  | some pok =>
    Except.ok ((m.mbAnnual heights pok).map (fun x => x / SEC_IN_YEAR / RHO))

end HistalpMassBalanceModel


/-- Association-list lookup with rational keys, modelling the Python dict
`self._interp` of `BackwardsMassBalanceModel` (keys compared with `=`). -/
def qlookup : List (ℚ × (ℚ → ℚ)) → ℚ → Option (ℚ → ℚ)
  | [], _ => none
  | (k, f) :: rest, b => if k = b then some f else qlookup rest b

/-- `BackwardsMassBalanceModel`: constant MB for a fixed window with a
temperature bias.  `__init__` precomputes `heights` (1000 samples),
`temp_2d[i, j] = temp[j] + grad[j] * (heights[i] - ref_hgt)` and
`prcpsol[i, j] = prcp[j]`; `interp` is the bias-keyed dict `self._interp`. -/
structure BackwardsMassBalanceModel where
  mu_star : ℚ
  temp_all_solid : ℚ
  temp_all_liq : ℚ
  temp_melt : ℚ
  ny : ℕ
  heights : List ℚ
  temp_2d : ℕ → ℕ → ℚ
  prcpsol : ℕ → ℕ → ℚ
  bias : ℚ
  interp : List (ℚ × (ℚ → ℚ))

namespace BackwardsMassBalanceModel

/-- `BackwardsMassBalanceModel.__init__`.  `yr0, yr1` is the climate period
(`[t_star - mu_hp, t_star + mu_hp]` when `use_tstar` else `[1983, 2003]`),
`fl_h` the flowline surface heights.  The time axis is rebuilt as
`yrs = arange(last - ny + 1, last + 1).repeat(12)`; the source then runs
`assert len(yrs) == len(time)`, slices `[p0:p1]` between the first index of
`yr0` and one past the last index of `yr1` (`np.min`/`np.max` of an empty
index set raise), and requires the slice length to be a multiple of 12. -/
def init (nc : ClimateNC)
    (mu_star temp_all_solid temp_all_liq temp_melt : ℚ)
    (yr0 yr1 : ℤ) (fl_h : List ℚ) (bias : ℚ) :
    Except String BackwardsMassBalanceModel :=
  let ny0 := nc.timeLen / 12
  let yrs : List ℤ :=
    ((List.range ny0).map (fun i : ℕ => nc.lastYear - (ny0 : ℤ) + 1 + (i : ℤ))).flatMap
      (fun y => List.replicate 12 y)
  if yrs.length = nc.timeLen then
    match findIdxEq yrs yr0, findLastIdxEq yrs yr1 with
    | some p0, some pmax =>
      let p1 := pmax + 1
      let temp := (nc.temp.drop p0).take (p1 - p0)
      let prcp := (nc.prcp.drop p0).take (p1 - p0)
      let grad := (nc.grad.drop p0).take (p1 - p0)
      if temp.length % 12 = 0 then
        let npix : ℕ := 1000
        let heights := linspace (npMin fl_h - 200) (npMax fl_h + 1200) npix
        Except.ok
          { mu_star := mu_star
            temp_all_solid := temp_all_solid
            temp_all_liq := temp_all_liq
            temp_melt := temp_melt
            ny := temp.length / 12
            heights := heights
            temp_2d := fun i j =>
              temp.getD j 0 + grad.getD j 0 * (heights.getD i 0 - nc.ref_hgt)
            prcpsol := fun i j => prcp.getD j 0
            bias := bias
            interp := [] }
      else Except.error "Climate data should be N full years exclusively"
    | _, _ => Except.error "zero-size array to reduction operation minimum"
  else Except.error "AssertionError"

/-- `MassBalanceModel.set_bias`, inherited: `self._bias = bias`. -/
def set_bias (m : BackwardsMassBalanceModel) (bias : ℚ) :
    BackwardsMassBalanceModel :=
  { m with bias := bias }

/-- The body of `_get_interp` that computes `mb_annual` for a bias value `b`:
`delta_t = -b / 100`; `temp2d = self.temp_2d + delta_t`;
`temp2dformelt = (temp2d - temp_melt).clip(0)`;
`fac = np.clip(1 - (temp2d - temp_all_solid) / (temp_all_liq - temp_all_solid), 0, 1)`;
`prcpsol = self.prcpsol * fac`;
`mb_annual = np.sum(prcpsol - mu_star * temp2dformelt, axis=1) / ny`. -/
def mbAnnualAt (m : BackwardsMassBalanceModel) (b : ℚ) : List ℚ :=
  (List.range m.heights.length).map (fun i =>
    ((List.range (12 * m.ny)).map (fun j =>
      let delta_t := -b / 100
      let temp2d := m.temp_2d i j + delta_t
      let temp2dformelt := max (temp2d - m.temp_melt) 0
      let fac := npClip (1 - (temp2d - m.temp_all_solid) /
        (m.temp_all_liq - m.temp_all_solid)) 0 1
      m.prcpsol i j * fac - m.mu_star * temp2dformelt)).sum / (m.ny : ℚ))

/-- The interpolant `_get_interp` builds and stores for a bias value `b`:
`interp1d(self.heights, mb_annual)`. -/
def mkInterp (m : BackwardsMassBalanceModel) (b : ℚ) : ℚ → ℚ :=
  interp1d m.heights (m.mbAnnualAt b)

/-- Modelled from the spec: the melt/accumulation kernel run on the
precomputed 2-D temperature grid after "this offset is added to every cell
of `temp2d`", for an explicit temperature offset `δ`; the bias scalar does
not occur.  Used to compare `_get_interp` against the spec sentence about
`delta_t = -bias / 100`. -/
def kernelWithOffset (m : BackwardsMassBalanceModel) (δ : ℚ) : List ℚ :=
  (List.range m.heights.length).map (fun i =>
    ((List.range (12 * m.ny)).map (fun j =>
      let temp2d := m.temp_2d i j + δ
      let temp2dformelt := max (temp2d - m.temp_melt) 0
      let fac := npClip (1 - (temp2d - m.temp_all_solid) /
        (m.temp_all_liq - m.temp_all_solid)) 0 1
      m.prcpsol i j * fac - m.mu_star * temp2dformelt)).sum / (m.ny : ℚ))

/-- `_get_interp`: serve the interpolant for the current bias from the dict,
or build and insert it.  Returns the interpolant, the updated model state,
and whether a build (dict insertion) happened. -/
def get_interp (m : BackwardsMassBalanceModel) :
    (ℚ → ℚ) × BackwardsMassBalanceModel × Bool :=
  match qlookup m.interp m.bias with
  | some f => (f, m, false)
  | none =>
    (m.mkInterp m.bias,
      { m with interp := (m.bias, m.mkInterp m.bias) :: m.interp }, true)

/-- `BackwardsMassBalanceModel.get_mb`:
`interp = self._get_interp(); return interp(heights) / SEC_IN_YEAR / cfg.RHO`.
Returns the values, the updated state, and the build flag. -/
def get_mb (m : BackwardsMassBalanceModel) (heights : List ℚ)
    (year : Option ℚ) : List ℚ × BackwardsMassBalanceModel × Bool :=
  (heights.map (fun h => m.get_interp.1 h / SEC_IN_YEAR / RHO),
    m.get_interp.2.1, m.get_interp.2.2)

/-- Every dict entry is the interpolant `_get_interp` would build for its
key: the invariant that holds for every reachable cache. -/
def CacheOK (m : BackwardsMassBalanceModel) : Prop :=
  ∀ p ∈ m.interp, p.2 = m.mkInterp p.1

end BackwardsMassBalanceModel

/-- One public call on a `BackwardsMassBalanceModel`: `set_bias` or
`get_mb` (the heights argument of the latter). -/
inductive MBOp where
  | setBias : ℚ → MBOp
  | getMb : List ℚ → MBOp

namespace BackwardsMassBalanceModel

/-- State transition of one public call. -/
def step (m : BackwardsMassBalanceModel) : MBOp → BackwardsMassBalanceModel
  | MBOp.setBias b => m.set_bias b
  | MBOp.getMb hs => (m.get_mb hs none).2.1

/-- State after an arbitrary interleaving of `set_bias`/`get_mb` calls. -/
def run (m : BackwardsMassBalanceModel) : List MBOp → BackwardsMassBalanceModel
  | [] => m
  | op :: ops => (m.step op).run ops

end BackwardsMassBalanceModel


/-- The raw kernel output of `HistalpMassBalanceModel.get_mb` before the
final `/ SEC_IN_YEAR / cfg.RHO` scaling: the selected year block and its
`mb_annual` (or the `IndexError` for an absent year). -/
def HistalpMassBalanceModel.rawAnnual (m : HistalpMassBalanceModel)
    (heights : List ℚ) (year : ℚ) : Except String (List ℚ) :=
  match findIdxEq m.years ⌊year⌋ with
  | none => Except.error "IndexError"
  | some pok => Except.ok (m.mbAnnual heights pok)

/-- A concrete all-cold HISTALP input: a single year (1984) whose twelve
months all have temperature -10, zero precipitation and zero gradient, with
`mu_star = 1`, `temp_all_solid = 0`, `temp_all_liq = 2`, `temp_melt = 0`. -/
def histalpAllCold : HistalpMassBalanceModel :=
  { mu_star := 1
    temp_all_solid := 0
    temp_all_liq := 2
    temp_melt := 0
    years := [1984]
    temp := List.replicate 12 (-10)
    prcp := List.replicate 12 0
    grad := List.replicate 12 0
    ref_hgt := 0
    bias := 0 }

/-- A concrete two-year HISTALP model (years 2000 and 2001, constant
climate) used to instantiate the year-selection property. -/
def histalpTwoYears : HistalpMassBalanceModel :=
  { mu_star := 1
    temp_all_solid := 0
    temp_all_liq := 2
    temp_melt := 0
    years := [2000, 2001]
    temp := List.replicate 24 1
    prcp := List.replicate 24 10
    grad := List.replicate 24 0
    ref_hgt := 0
    bias := 0 }

/-- A concrete `BackwardsMassBalanceModel` state with an empty interpolant
dict: one year of data on two height samples, uniform temperature 1 and
precipitation 1. -/
def bwSmall : BackwardsMassBalanceModel :=
  { mu_star := 1
    temp_all_solid := 0
    temp_all_liq := 2
    temp_melt := 0
    ny := 1
    heights := [0, 1000]
    temp_2d := fun _ _ => 1
    prcpsol := fun _ _ => 1
    bias := 0
    interp := [] }

/-! ## Theorems -/

/-- C6: `ConstantBalanceModel.get_mb` returns
`((h - ela_h) * grad + bias) / SEC_IN_YEAR / 1000` per height, so at the ELA
it returns `bias / SEC_IN_YEAR / 1000`, it is linear in elevation with slope
`grad / SEC_IN_YEAR / 1000`, and it is independent of the `year` argument. -/
theorem C6_constant_model_formula (ela grad bias : ℚ) (heights : List ℚ)
    (year y1 y2 : Option ℚ) (h1 h2 : ℚ) :
    (ConstantBalanceModel.get_mb ⟨ela, grad, bias⟩ heights year =
      heights.map (fun h => ((h - ela) * grad + bias) / SEC_IN_YEAR / 1000)) ∧
    (ConstantBalanceModel.get_mb ⟨ela, grad, bias⟩ [ela] year =
      [bias / SEC_IN_YEAR / 1000]) ∧
    ((ConstantBalanceModel.get_mb ⟨ela, grad, bias⟩ [h2] year).headD 0 -
      (ConstantBalanceModel.get_mb ⟨ela, grad, bias⟩ [h1] year).headD 0 =
      (h2 - h1) * (grad / SEC_IN_YEAR / 1000)) ∧
    (ConstantBalanceModel.get_mb ⟨ela, grad, bias⟩ heights y1 =
      ConstantBalanceModel.get_mb ⟨ela, grad, bias⟩ heights y2) := by
  refine ⟨rfl, ?_, ?_, rfl⟩
  · simp [ConstantBalanceModel.get_mb]
  · simp only [ConstantBalanceModel.get_mb, List.map_cons, List.map_nil,
      List.headD_cons]
    have hS : (SEC_IN_YEAR : ℚ) ≠ 0 := by norm_num [SEC_IN_YEAR]
    field_simp
    ring

/-- C7: for models built by the `TstarMassBalanceModel` and
`TodayMassBalanceModel` constructors, `get_mb` evaluates the single
interpolant built at construction over `(elevation, mb_on_h)` with
`mb_on_h = mean_precip - mu_star * mean_temp`, adds the bias, divides by
`SEC_IN_YEAR` and by `RHO`, and is independent of the `year` argument. -/
theorem C7_equilibrium_models_formula (mu_star : ℚ) (t_star : ℤ)
    (fl_h : List ℚ) (t p : List (List ℚ)) (bias : ℚ) (heights : List ℚ)
    (y1 y2 : Option ℚ) :
    ((TstarMassBalanceModel.init mu_star t_star fl_h t p bias).get_mb heights y1 =
      heights.map (fun x =>
        (interp1d (linspace (npMin fl_h - 200) (npMax fl_h + 1200) 1000)
          ((p.zip t).map (fun pt => npMean pt.1 - mu_star * npMean pt.2)) x
          + bias) / SEC_IN_YEAR / RHO)) ∧
    ((TstarMassBalanceModel.init mu_star t_star fl_h t p bias).get_mb heights y1 =
      (TstarMassBalanceModel.init mu_star t_star fl_h t p bias).get_mb heights y2) ∧
    ((TodayMassBalanceModel.init mu_star fl_h t p bias).get_mb heights y1 =
      heights.map (fun x =>
        (interp1d (linspace (npMin fl_h - 100) (npMax fl_h + 200) 1000)
          ((p.zip t).map (fun pt => npMean pt.1 - mu_star * npMean pt.2)) x
          + bias) / SEC_IN_YEAR / RHO)) ∧
    ((TodayMassBalanceModel.init mu_star fl_h t p bias).get_mb heights y1 =
      (TodayMassBalanceModel.init mu_star fl_h t p bias).get_mb heights y2) :=
  ⟨rfl, rfl, rfl, rfl⟩

/-- C8: `HistalpMassBalanceModel.get_mb` never reads the stored bias: two
runs that differ only in the value passed to `set_bias` return identical
results for every heights array and every year. -/
theorem C8_histalp_ignores_bias (m : HistalpMassBalanceModel) (b1 b2 : ℚ)
    (heights : List ℚ) (year : ℚ) :
    (m.set_bias b1).get_mb heights year = (m.set_bias b2).get_mb heights year :=
  rfl

/-- C1 (divergence witness): on an all-cold input the HISTALP kernel does
not clamp the melt term at zero.  With every cell's melt forcing equal to
`-10`, `np.clip(temp2dformelt, 0, temp2dformelt.max())` returns the negative
array maximum `-10` instead of the claimed `max(temp - temp_melt, 0) = 0`,
so `get_mb` reports a spurious mass gain of `120` (before unit scaling)
where the claimed kernel yields `0`.  `BackwardsMassBalanceModel` uses
`.clip(0)` and is unaffected. -/
theorem C1_histalp_melt_not_clamped :
    histalpAllCold.rawMelt [0] 0 0 0 = -10 ∧
    histalpAllCold.melt [0] 0 0 0 = -10 ∧
    max (histalpAllCold.rawMelt [0] 0 0 0) 0 = 0 ∧
    histalpAllCold.mbAnnual [0] 0 = [120] ∧
    histalpAllCold.get_mb [0] 1984 = Except.ok [1 / 236520000] := by
  refine ⟨?_, ?_, ?_, ?_, ?_⟩ <;>
    norm_num [HistalpMassBalanceModel.get_mb, HistalpMassBalanceModel.mbAnnual,
      HistalpMassBalanceModel.fac, HistalpMassBalanceModel.melt,
      HistalpMassBalanceModel.meltMax, HistalpMassBalanceModel.rawMelt,
      HistalpMassBalanceModel.temp2d, HistalpMassBalanceModel.block,
      histalpAllCold, List.replicate, List.range_succ, npMax, npClip,
      findIdxEq, SEC_IN_YEAR, RHO]

/-- C4: for every bias value `b`, the interpolant `_get_interp` builds is
exactly the melt/accumulation kernel run on `temp_2d` with the offset
`delta_t = -b / 100` added to every cell, and `b` enters the computation in
no other way (the offset kernel takes no bias argument). -/
theorem C4_backwards_bias_is_temperature_offset
    (m : BackwardsMassBalanceModel) (b : ℚ) :
    m.mbAnnualAt b = m.kernelWithOffset (-b / 100) ∧
    m.mkInterp b = interp1d m.heights (m.kernelWithOffset (-b / 100)) :=
  ⟨rfl, rfl⟩

/-- C3 (counterexample): `TstarMassBalanceModel.get_mb` does not divide by
ice density only.  For the model with interpolation nodes
`([0, 1], [900, 900])` and zero bias, dividing by `RHO` alone would give
`[1]`, but `get_mb` also divides by `SEC_IN_YEAR`. -/
theorem C3_counterexample_tstar_divides_by_sec :
    TstarMassBalanceModel.get_mb ⟨[0, 1], [900, 900], 1990, 0⟩ [0] none ≠
      [(interp1d [0, 1] [900, 900] 0 + 0) / RHO] := by
  norm_num [TstarMassBalanceModel.get_mb, interp1d, interpSeg,
    SEC_IN_YEAR, RHO]

/-- C3 (amended): every caller of the monthly kernel — including the
equilibrium-period models `TstarMassBalanceModel` and
`TodayMassBalanceModel` — divides its raw output by `SEC_IN_YEAR` and by
`RHO`; there is no unit asymmetry. -/
theorem C3_all_callers_divide_by_sec_and_rho
    (mT : TstarMassBalanceModel) (mD : TodayMassBalanceModel)
    (mB : BackwardsMassBalanceModel) (mH : HistalpMassBalanceModel)
    (hs : List ℚ) (y : Option ℚ) (yr : ℚ) :
    (mT.get_mb hs y =
      hs.map (fun x => (interp1d mT.h mT.mb_on_h x + mT.bias) /
        SEC_IN_YEAR / RHO)) ∧
    (mD.get_mb hs y =
      hs.map (fun x => (interp1d mD.h mD.mb_on_h x + mD.bias) /
        SEC_IN_YEAR / RHO)) ∧
    ((mB.get_mb hs y).1 =
      hs.map (fun h => mB.get_interp.1 h / SEC_IN_YEAR / RHO)) ∧
    (mH.get_mb hs yr =
      Except.map (fun l => l.map (fun x => x / SEC_IN_YEAR / RHO))
        (mH.rawAnnual hs yr)) := by
  refine ⟨rfl, rfl, rfl, ?_⟩
  unfold HistalpMassBalanceModel.get_mb HistalpMassBalanceModel.rawAnnual
  cases findIdxEq mH.years ⌊yr⌋ <;> rfl

/-- `np.where` on a consecutive-years axis: the first index of `t` in
`[y0, y0 + 1, ..., y0 + n - 1]` is `t - y0` when `t` is in range, and
absent otherwise. -/
theorem findIdxEq_consec (n : ℕ) (y0 t : ℤ) :
    findIdxEq ((List.range n).map (fun i : ℕ => y0 + (i : ℤ))) t =
      if y0 ≤ t ∧ t < y0 + (n : ℤ) then some (t - y0).toNat else none := by
  induction n generalizing y0 with
  | zero =>
    rw [if_neg (by omega)]
    rfl
  | succ n ih =>
    rw [List.range_succ_eq_map, List.map_cons, List.map_map]
    have hfun : ((fun i : ℕ => y0 + (i : ℤ)) ∘ Nat.succ) =
        fun i : ℕ => (y0 + 1) + (i : ℤ) := by
      funext i
      simp only [Function.comp_apply]
      push_cast
      ring
    rw [hfun]
    simp only [findIdxEq, Nat.cast_zero, add_zero]
    by_cases h : y0 = t
    · subst h
      rw [if_pos rfl, if_pos (by refine ⟨le_refl y0, ?_⟩; push_cast; omega)]
      norm_num
    · rw [if_neg h, ih (y0 + 1)]
      by_cases h2 : y0 + 1 ≤ t ∧ t < y0 + 1 + (n : ℤ)
      · rw [if_pos h2, if_pos (by push_cast; omega)]
        have harith : (t - (y0 + 1)).toNat + 1 = (t - y0).toNat := by omega
        rw [← harith]
        rfl
      · rw [if_neg h2, if_neg (by push_cast at h2 ⊢; omega)]
        rfl

/-- C5: for a HISTALP record covering calendar years `[y0 .. y0 + n - 1]`,
`get_mb(heights, Y)` with `floor(Y)` in range computes its result from
exactly the one 12-month block at index `floor(Y) - y0` (months
`12 * pok` to `12 * pok + 11`), and with `floor(Y)` out of range it raises
an `IndexError` instead of returning values. -/
theorem C5_histalp_year_selection (m : HistalpMassBalanceModel) (y0 : ℤ)
    (n : ℕ)
    (hyears : m.years = (List.range n).map (fun i : ℕ => y0 + (i : ℤ)))
    (heights : List ℚ) (Y : ℚ) :
    (y0 ≤ ⌊Y⌋ ∧ ⌊Y⌋ < y0 + (n : ℤ) →
      m.get_mb heights Y =
        Except.ok ((m.mbAnnual heights (⌊Y⌋ - y0).toNat).map
          (fun x => x / SEC_IN_YEAR / RHO))) ∧
    ((⌊Y⌋ < y0 ∨ y0 + (n : ℤ) ≤ ⌊Y⌋) →
      m.get_mb heights Y = Except.error "IndexError") := by
  unfold HistalpMassBalanceModel.get_mb
  rw [hyears, findIdxEq_consec]
  constructor
  · intro h
    rw [if_pos h]
  · intro h
    rw [if_neg (by omega)]

/-- Witness for C5 at the concrete two-year model and `Y = 2000.5`. -/
theorem C5_witness :
    (histalpTwoYears.years = (List.range 2).map (fun i : ℕ => 2000 + (i : ℤ))) ∧
    ((2000 ≤ ⌊(2000.5 : ℚ)⌋ ∧ ⌊(2000.5 : ℚ)⌋ < 2000 + ((2 : ℕ) : ℤ) →
      histalpTwoYears.get_mb [0] 2000.5 =
        Except.ok ((histalpTwoYears.mbAnnual [0] (⌊(2000.5 : ℚ)⌋ - 2000).toNat).map
          (fun x => x / SEC_IN_YEAR / RHO))) ∧
     ((⌊(2000.5 : ℚ)⌋ < 2000 ∨ 2000 + ((2 : ℕ) : ℤ) ≤ ⌊(2000.5 : ℚ)⌋) →
      histalpTwoYears.get_mb [0] 2000.5 = Except.error "IndexError")) :=
  ⟨by decide, C5_histalp_year_selection histalpTwoYears 2000 2 (by decide) [0] 2000.5⟩

/-- `arange(..).repeat(12)` has length `12 * n`. -/
theorem length_flatMap_replicate (l : List ℤ) :
    (l.flatMap (fun y => List.replicate 12 y)).length = 12 * l.length := by
  induction l with
  | nil => rfl
  | cons x xs ih =>
    simp only [List.flatMap_cons, List.length_append, List.length_replicate,
      ih, List.length_cons]
    ring

/-- C9: a monthly climate record whose series length is not a multiple of
12 makes both constructors raise during `__init__`:
`BackwardsMassBalanceModel.__init__` fails its
`assert len(yrs) == len(time)` (the rebuilt year axis has length
`12 * (len(time) // 12)`), and `HistalpMassBalanceModel.__init__` raises
`ValueError`; no model instance with a partial hydrological year is
produced. -/
theorem C9_partial_year_record_rejected (nc : ClimateNC)
    (h : nc.timeLen % 12 ≠ 0) (mu ts tl tm : ℚ) (yr0 yr1 : ℤ)
    (fl_h : List ℚ) (bias : ℚ) :
    BackwardsMassBalanceModel.init nc mu ts tl tm yr0 yr1 fl_h bias =
      Except.error "AssertionError" ∧
    HistalpMassBalanceModel.init nc mu ts tl tm =
      Except.error "Climate data should be N full years exclusively" := by
  constructor
  · simp only [BackwardsMassBalanceModel.init]
    split
    next hcond =>
      exfalso
      rw [length_flatMap_replicate, List.length_map, List.length_range] at hcond
      omega
    next => rfl
  · simp only [HistalpMassBalanceModel.init]
    split
    next hcond => exact absurd hcond h
    next => rfl

/-- Witness for C9 at a concrete 13-month record. -/
theorem C9_witness :
    (13 : ℕ) % 12 ≠ 0 ∧
    (BackwardsMassBalanceModel.init ⟨13, 2000, [], [], [], 0⟩ 1 0 2 0
        1983 2003 [] 0 = Except.error "AssertionError" ∧
      HistalpMassBalanceModel.init ⟨13, 2000, [], [], [], 0⟩ 1 0 2 0 =
        Except.error "Climate data should be N full years exclusively") :=
  ⟨by decide,
    C9_partial_year_record_rejected ⟨13, 2000, [], [], [], 0⟩ (by decide)
      1 0 2 0 1983 2003 [] 0⟩

/-- A successful dict lookup returns a stored entry. -/
theorem qlookup_mem {l : List (ℚ × (ℚ → ℚ))} {b : ℚ} {f : ℚ → ℚ}
    (h : qlookup l b = some f) : (b, f) ∈ l := by
  induction l with
  | nil => exact absurd h (by simp [qlookup])
  | cons p rest ih =>
    obtain ⟨k, g⟩ := p
    by_cases hk : k = b
    · subst hk
      simp only [qlookup, if_pos rfl] at h
      injection h with h2
      subst h2
      exact List.mem_cons_self _ _
    · simp only [qlookup, if_neg hk] at h
      exact List.mem_cons_of_mem _ (ih h)

theorem get_interp_hit {m : BackwardsMassBalanceModel} {f : ℚ → ℚ}
    (h : qlookup m.interp m.bias = some f) :
    m.get_interp = (f, m, false) := by
  unfold BackwardsMassBalanceModel.get_interp
  rw [h]

theorem get_interp_miss {m : BackwardsMassBalanceModel}
    (h : qlookup m.interp m.bias = none) :
    m.get_interp = (m.mkInterp m.bias,
      { m with interp := (m.bias, m.mkInterp m.bias) :: m.interp }, true) := by
  unfold BackwardsMassBalanceModel.get_interp
  rw [h]

theorem mkInterp_set_bias (m : BackwardsMassBalanceModel) (b b2 : ℚ) :
    (m.set_bias b).mkInterp b2 = m.mkInterp b2 := rfl

theorem cacheOK_set_bias {m : BackwardsMassBalanceModel} (hm : m.CacheOK)
    (b : ℚ) : (m.set_bias b).CacheOK := by
  intro p hp
  exact hm p hp

theorem cacheOK_get_interp {m : BackwardsMassBalanceModel} (hm : m.CacheOK) :
    m.get_interp.2.1.CacheOK := by
  cases hq : qlookup m.interp m.bias with
  | some f =>
    rw [get_interp_hit hq]
    exact hm
  | none =>
    rw [get_interp_miss hq]
    intro p hp
    rcases List.mem_cons.mp hp with h1 | h2
    · rw [h1]
      rfl
    · exact hm p h2

theorem get_interp_fst {m : BackwardsMassBalanceModel} (hm : m.CacheOK) :
    m.get_interp.1 = m.mkInterp m.bias := by
  cases hq : qlookup m.interp m.bias with
  | some f =>
    rw [get_interp_hit hq]
    exact hm (m.bias, f) (qlookup_mem hq)
  | none => rw [get_interp_miss hq]

theorem get_interp_bias (m : BackwardsMassBalanceModel) :
    m.get_interp.2.1.bias = m.bias := by
  cases hq : qlookup m.interp m.bias with
  | some f => rw [get_interp_hit hq]
  | none => rw [get_interp_miss hq]

theorem mkInterp_get_interp (m : BackwardsMassBalanceModel) (b : ℚ) :
    m.get_interp.2.1.mkInterp b = m.mkInterp b := by
  cases hq : qlookup m.interp m.bias with
  | some f => rw [get_interp_hit hq]
  | none =>
    rw [get_interp_miss hq]
    rfl

theorem get_interp_mem_after (m : BackwardsMassBalanceModel) :
    qlookup m.get_interp.2.1.interp m.get_interp.2.1.bias =
      some m.get_interp.1 := by
  cases hq : qlookup m.interp m.bias with
  | some f =>
    rw [get_interp_hit hq]
    exact hq
  | none =>
    rw [get_interp_miss hq]
    show qlookup ((m.bias, m.mkInterp m.bias) :: m.interp) m.bias =
      some (m.mkInterp m.bias)
    simp [qlookup]

theorem get_mb_val {m : BackwardsMassBalanceModel} (hm : m.CacheOK)
    (hs : List ℚ) (y : Option ℚ) :
    (m.get_mb hs y).1 =
      hs.map (fun h => m.mkInterp m.bias h / SEC_IN_YEAR / RHO) := by
  simp only [BackwardsMassBalanceModel.get_mb]
  simp only [get_interp_fst hm]

theorem get_mb_size_miss {m : BackwardsMassBalanceModel}
    (h : qlookup m.interp m.bias = none) (hs : List ℚ) (y : Option ℚ) :
    (m.get_mb hs y).2.1.interp.length = m.interp.length + 1 := by
  show m.get_interp.2.1.interp.length = m.interp.length + 1
  rw [get_interp_miss h]
  rfl

theorem step_mkInterp (m : BackwardsMassBalanceModel) (op : MBOp) (b : ℚ) :
    (m.step op).mkInterp b = m.mkInterp b := by
  cases op with
  | setBias b2 => rfl
  | getMb hs => exact mkInterp_get_interp m b

theorem run_mkInterp (ops : List MBOp) (m : BackwardsMassBalanceModel)
    (b : ℚ) : (m.run ops).mkInterp b = m.mkInterp b := by
  induction ops generalizing m with
  | nil => rfl
  | cons op ops ih =>
    simp only [BackwardsMassBalanceModel.run]
    rw [ih, step_mkInterp]

theorem step_cacheOK {m : BackwardsMassBalanceModel} (hm : m.CacheOK)
    (op : MBOp) : (m.step op).CacheOK := by
  cases op with
  | setBias b => exact cacheOK_set_bias hm b
  | getMb hs => exact cacheOK_get_interp hm

theorem run_cacheOK {m : BackwardsMassBalanceModel} (hm : m.CacheOK)
    (ops : List MBOp) : (m.run ops).CacheOK := by
  induction ops generalizing m with
  | nil => exact hm
  | cons op ops ih =>
    simp only [BackwardsMassBalanceModel.run]
    exact ih (step_cacheOK hm op)

theorem step_cache_extends (m : BackwardsMassBalanceModel) (op : MBOp) :
    ∃ t, (m.step op).interp = t ++ m.interp := by
  cases op with
  | setBias b => exact ⟨[], rfl⟩
  | getMb hs =>
    show ∃ t, m.get_interp.2.1.interp = t ++ m.interp
    cases hq : qlookup m.interp m.bias with
    | some f =>
      refine ⟨[], ?_⟩
      rw [get_interp_hit hq]
      rfl
    | none =>
      refine ⟨[(m.bias, m.mkInterp m.bias)], ?_⟩
      rw [get_interp_miss hq]
      rfl

theorem run_cache_extends (ops : List MBOp) (m : BackwardsMassBalanceModel) :
    ∃ t, (m.run ops).interp = t ++ m.interp := by
  induction ops generalizing m with
  | nil => exact ⟨[], rfl⟩
  | cons op ops ih =>
    obtain ⟨t1, h1⟩ := step_cache_extends m op
    obtain ⟨t2, h2⟩ := ih (m.step op)
    refine ⟨t2 ++ t1, ?_⟩
    simp only [BackwardsMassBalanceModel.run]
    rw [h2, h1, List.append_assoc]

theorem double_get_mb {m : BackwardsMassBalanceModel} (hm : m.CacheOK)
    (hs : List ℚ) :
    ((m.get_mb hs none).2.1.get_mb hs none).1 = (m.get_mb hs none).1 ∧
    ((m.get_mb hs none).2.1.get_mb hs none).2.2 = false := by
  have hstate : (m.get_mb hs none).2.1 = m.get_interp.2.1 := rfl
  constructor
  · rw [hstate, get_mb_val (cacheOK_get_interp hm) hs none,
      get_mb_val hm hs none]
    have hf : m.get_interp.2.1.mkInterp m.get_interp.2.1.bias =
        m.mkInterp m.bias := by
      rw [get_interp_bias, mkInterp_get_interp]
    simp only [hf]
  · show (m.get_mb hs none).2.1.get_interp.2.2 = false
    rw [hstate, get_interp_hit (get_interp_mem_after m)]

theorem get_mb_val_of_run (m0 : BackwardsMassBalanceModel) (h0 : m0.CacheOK)
    (ops : List MBOp) (b : ℚ) (hs : List ℚ) :
    (((m0.run ops).set_bias b).get_mb hs none).1 =
      hs.map (fun h => m0.mkInterp b h / SEC_IN_YEAR / RHO) := by
  rw [get_mb_val (cacheOK_set_bias (run_cacheOK h0 ops) b) hs none]
  have hk : ((m0.run ops).set_bias b).mkInterp ((m0.run ops).set_bias b).bias =
      m0.mkInterp b := by
    show ((m0.run ops).set_bias b).mkInterp b = m0.mkInterp b
    rw [mkInterp_set_bias, run_mkInterp]
  simp only [hk]

/-- C2: for any interleaving of `set_bias`/`get_mb` calls starting from a
state whose cache entries were built by `_get_interp` (in particular a
freshly constructed model): two consecutive `get_mb` calls with the same
heights under the same bias return identical results and the second call
does not build an interpolant; a `get_mb` under a bias value not yet in the
dict grows the dict by exactly one entry; and after any other interleaving,
resetting the bias to `b` makes `get_mb` return the same values as the
first call at `b`. -/
theorem C2_interp_cache (m0 : BackwardsMassBalanceModel) (h0 : m0.CacheOK)
    (ops1 ops2 : List MBOp) (b : ℚ) (hs : List ℚ) :
    ((((m0.run ops1).set_bias b).get_mb hs none).2.1.get_mb hs none).1 =
        (((m0.run ops1).set_bias b).get_mb hs none).1 ∧
    ((((m0.run ops1).set_bias b).get_mb hs none).2.1.get_mb hs none).2.2 =
        false ∧
    (qlookup ((m0.run ops1).set_bias b).interp b = none →
      (((m0.run ops1).set_bias b).get_mb hs none).2.1.interp.length =
        ((m0.run ops1).set_bias b).interp.length + 1) ∧
    (((m0.run ops2).set_bias b).get_mb hs none).1 =
        (((m0.run ops1).set_bias b).get_mb hs none).1 := by
  have hC1 : ((m0.run ops1).set_bias b).CacheOK :=
    cacheOK_set_bias (run_cacheOK h0 ops1) b
  obtain ⟨hval, hflag⟩ := double_get_mb hC1 hs
  refine ⟨hval, hflag, ?_, ?_⟩
  · intro hnone
    exact get_mb_size_miss hnone hs none
  · rw [get_mb_val_of_run m0 h0 ops1 b hs, get_mb_val_of_run m0 h0 ops2 b hs]

/-- C10: `set_bias` mutates only the stored bias scalar — the interpolant
dict, the precomputed climate arrays `temp_2d` and `prcpsol`, the `heights`
grid and the parameters are untouched — and over any call sequence cache
entries are only ever added by `get_mb` (the old dict is a suffix of the
new one), so the cache size is non-decreasing. -/
theorem C10_frame (m : BackwardsMassBalanceModel) (b : ℚ) (ops : List MBOp) :
    ((m.set_bias b).bias = b ∧
      (m.set_bias b).interp = m.interp ∧
      (m.set_bias b).temp_2d = m.temp_2d ∧
      (m.set_bias b).prcpsol = m.prcpsol ∧
      (m.set_bias b).heights = m.heights ∧
      (m.set_bias b).mu_star = m.mu_star ∧
      (m.set_bias b).temp_all_solid = m.temp_all_solid ∧
      (m.set_bias b).temp_all_liq = m.temp_all_liq ∧
      (m.set_bias b).temp_melt = m.temp_melt ∧
      (m.set_bias b).ny = m.ny) ∧
    (∃ t, (m.run ops).interp = t ++ m.interp) ∧
    m.interp.length ≤ (m.run ops).interp.length := by
  refine ⟨⟨rfl, rfl, rfl, rfl, rfl, rfl, rfl, rfl, rfl, rfl⟩,
    run_cache_extends ops m, ?_⟩
  obtain ⟨t, ht⟩ := run_cache_extends ops m
  rw [ht, List.length_append]
  omega

/-- Witness for C2 at a concrete model with an empty cache,
`ops1 = [set_bias 5]`, `ops2 = []`, bias `3` and heights `[0]`. -/
theorem C2_witness :
    bwSmall.CacheOK ∧
    (((((bwSmall.run [MBOp.setBias 5]).set_bias 3).get_mb [0] none).2.1.get_mb
        [0] none).1 =
      (((bwSmall.run [MBOp.setBias 5]).set_bias 3).get_mb [0] none).1 ∧
    ((((bwSmall.run [MBOp.setBias 5]).set_bias 3).get_mb [0] none).2.1.get_mb
        [0] none).2.2 = false ∧
    (qlookup ((bwSmall.run [MBOp.setBias 5]).set_bias 3).interp 3 = none →
      (((bwSmall.run [MBOp.setBias 5]).set_bias 3).get_mb
          [0] none).2.1.interp.length =
        ((bwSmall.run [MBOp.setBias 5]).set_bias 3).interp.length + 1) ∧
    (((bwSmall.run []).set_bias 3).get_mb [0] none).1 =
      (((bwSmall.run [MBOp.setBias 5]).set_bias 3).get_mb [0] none).1) :=
  ⟨fun p hp => absurd hp (List.not_mem_nil p),
    C2_interp_cache bwSmall (fun p hp => absurd hp (List.not_mem_nil p))
      [MBOp.setBias 5] [] 3 [0]⟩
